import Mathlib

/-!
Verification of the STATCOM Web UI alarm subsystem (src/app.js).

This file gives a shallow embedding, in Lean 4, of the status-aggregation,
alarm-generation, alarm-filtering, duration-formatting and CSV-export logic
of `src/app.js`, and proves (or refutes) the stated properties of that code.

Modelling conventions:
* JavaScript strings are Lean `String`s; status maps are embedded as the
  list of their values in insertion order (the order `Object.values`
  iterates).
* JavaScript numbers (timestamps, random draws) are embedded as `ℚ`;
  `Date` objects carry their millisecond time value directly (the sub-ms
  truncation that `new Date(x)` performs does not affect any property
  proved here).  `Math.floor` is `Int.floor`.
* JavaScript bracket lookup on an object literal follows the prototype
  chain: a key the literal owns yields its stored value, a key inherited
  from `Object.prototype` (`constructor`, `toString`, `__proto__`, ...)
  yields a truthy non-numeric object whose properties are `undefined` and
  whose arithmetic is NaN, and any other key yields `undefined`.  The
  lookups `statusPriorityLookup` and `timeCutoff` carry this three-way
  outcome explicitly.
* A thrown `TypeError` (a lookup of `.priority` on `undefined`) is embedded
  as `Option.none` propagating through the computation.
* `Math.random()` draws are inputs: an explicit stream `rand : ℕ → ℚ`
  consumed at successive indices, quantified over all streams with values
  in `[0, 1)`.
-/

/-- The `STATUS_VALUES` entries of `src/app.js` (label, CSS class, priority,
color).  The `class` field is renamed `cls` (`class` is a Lean keyword). -/
structure StatusInfo where
  label : String
  cls : String
  priority : ℕ
  color : String
deriving Repr, DecidableEq

/-- The own properties of the `STATUS_VALUES` object literal of
`src/app.js` (lines 176-201); the full bracket lookup, prototype chain
included, is `statusPriorityLookup` below. -/
def STATUS_VALUES : String → Option StatusInfo
  | "OK" => some ⟨"OK", "status-ok", 1, "#2d5f4d"⟩
  | "DEGRADED" => some ⟨"DEGRADED", "status-degraded", 2, "#d4a850"⟩
  | "WARNING" => some ⟨"WARNING", "status-warning", 3, "#e67e50"⟩
  | "CRITICAL" => some ⟨"CRITICAL", "status-critical", 4, "#c84848"⟩
  | _ => none

/-- The string keys every object literal inherits from
`Object.prototype`; bracket lookup of one of these on a literal that does
not own it returns the inherited function (or, for the last one, the
prototype object), which is truthy, has no `priority` property, and is
NaN under arithmetic. -/
def objectPrototypeKeys : List String :=
  ["constructor", "hasOwnProperty", "isPrototypeOf", "propertyIsEnumerable",
   "toLocaleString", "toString", "valueOf", "__defineGetter__",
   "__defineSetter__", "__lookupGetter__", "__lookupSetter__", "__proto__"]

/-- The full result of `STATUS_VALUES[status].priority`:
`some (some p)` — an own entry with priority `p`; `some none` — an
inherited `Object.prototype` key, a truthy object whose `.priority` is
`undefined`; `none` — `STATUS_VALUES[status]` is `undefined` and the
`.priority` access throws a `TypeError`. -/
def statusPriorityLookup (status : String) : Option (Option ℕ) :=
  match STATUS_VALUES status with
  | some info => some (some info.priority)
  | none => if status ∈ objectPrototypeKeys then some none else none

/-- The loop body of `getAggregateModuleStatus` (src/app.js lines 312-326):
state is `(worstStatus, highestPriority)`.  An unknown status throws at
the priority lookup (embedded as `none`, aborting the iteration); an
inherited `Object.prototype` key gives `statusPriority = undefined`, and
`undefined > highestPriority` is false, so the entry is silently
skipped. -/
def aggregateFold : String × ℕ → List String → Option (String × ℕ)
  | st, [] => some st
  | (worstStatus, highestPriority), status :: rest =>
    match statusPriorityLookup status with
    | none => none
    | some none => aggregateFold (worstStatus, highestPriority) rest
    | some (some p) =>
      aggregateFold
        (if highestPriority < p then (status, p)
         else (worstStatus, highestPriority)) rest

/-- `getAggregateModuleStatus` of `src/app.js` (lines 312-326), applied to
the value list of the status object.  Starts from `('OK', 0)` and returns
the worst status found; `none` models the `TypeError` thrown when a status
value is outside `STATUS_VALUES`. -/
def getAggregateModuleStatus (moduleStatuses : List String) : Option String :=
  (aggregateFold ("OK", 0) moduleStatuses).map Prod.fst

/-- The four severity labels the code knows about. -/
def knownStatuses : List String := ["OK", "DEGRADED", "WARNING", "CRITICAL"]

/-- The priority of a status label, with `0` for labels outside the table
(only used to state properties; the code itself throws there). -/
def statusPrio (s : String) : ℕ :=
  match STATUS_VALUES s with
  | some info => info.priority
  | none => 0

/-- The unique known label with a given (nonzero) priority. -/
def labelOfPrio : ℕ → String
  | 1 => "OK"
  | 2 => "DEGRADED"
  | 3 => "WARNING"
  | 4 => "CRITICAL"
  | _ => ""

/-- Maximum priority occurring in a status list (`0` for the empty list). -/
def maxPrio : List String → ℕ
  | [] => 0
  | s :: rest => max (statusPrio s) (maxPrio rest)

example : getAggregateModuleStatus ["OK", "WARNING", "DEGRADED"] = some "WARNING" := by decide

example : getAggregateModuleStatus ["OK", "FAILED"] = none := by decide

lemma statusPrio_pos_of_known {s : String} (h : s ∈ knownStatuses) : 1 ≤ statusPrio s := by
  simp only [knownStatuses, List.mem_cons, List.not_mem_nil, or_false] at h
  rcases h with rfl | rfl | rfl | rfl <;> decide

lemma statusPrio_le_four_of_known {s : String} (h : s ∈ knownStatuses) : statusPrio s ≤ 4 := by
  simp only [knownStatuses, List.mem_cons, List.not_mem_nil, or_false] at h
  rcases h with rfl | rfl | rfl | rfl <;> decide

lemma labelOfPrio_statusPrio {s : String} (h : s ∈ knownStatuses) :
    labelOfPrio (statusPrio s) = s := by
  simp only [knownStatuses, List.mem_cons, List.not_mem_nil, or_false] at h
  rcases h with rfl | rfl | rfl | rfl <;> decide

lemma statusPrio_labelOfPrio {p : ℕ} (h1 : 1 ≤ p) (h4 : p ≤ 4) :
    statusPrio (labelOfPrio p) = p := by
  interval_cases p <;> decide

lemma labelOfPrio_known {p : ℕ} (h1 : 1 ≤ p) (h4 : p ≤ 4) :
    labelOfPrio p ∈ knownStatuses := by
  interval_cases p <;> decide

lemma STATUS_VALUES_isSome_of_known {s : String} (h : s ∈ knownStatuses) :
    (STATUS_VALUES s).isSome := by
  simp only [knownStatuses, List.mem_cons, List.not_mem_nil, or_false] at h
  rcases h with rfl | rfl | rfl | rfl <;> decide

lemma STATUS_VALUES_priority {s : String} {info : StatusInfo}
    (h : STATUS_VALUES s = some info) : info.priority = statusPrio s := by
  simp [statusPrio, h]

/-- Characterization of the aggregation fold on lists of known statuses:
it never fails, its priority component is the max of the starting priority
and the priorities in the list, and its label component is either the
starting label (when nothing beats the starting priority) or an element of
the list realizing the maximal priority. -/
lemma aggregateFold_spec (xs : List String) :
    ∀ (w : String) (hp : ℕ), (∀ s ∈ xs, s ∈ knownStatuses) →
      ∃ w2 hp2, aggregateFold (w, hp) xs = some (w2, hp2) ∧
        hp2 = max hp (maxPrio xs) ∧
        ((w2 = w ∧ hp2 = hp) ∨ (w2 ∈ xs ∧ statusPrio w2 = hp2)) := by
  induction xs with
  | nil =>
    intro w hp _
    refine ⟨w, hp, rfl, ?_, Or.inl ⟨rfl, rfl⟩⟩
    simp [maxPrio]
  | cons s rest ih =>
    intro w hp hknown
    have hs : s ∈ knownStatuses := hknown s (List.mem_cons_self s rest)
    have hrest : ∀ t ∈ rest, t ∈ knownStatuses := fun t ht => hknown t (List.mem_cons_of_mem s ht)
    obtain ⟨info, hinfo⟩ := Option.isSome_iff_exists.mp (STATUS_VALUES_isSome_of_known hs)
    have hps : info.priority = statusPrio s := STATUS_VALUES_priority hinfo
    have hlook : statusPriorityLookup s = some (some info.priority) := by
      simp [statusPriorityLookup, hinfo]
    have hstep : aggregateFold (w, hp) (s :: rest)
        = aggregateFold (if hp < info.priority then (s, info.priority) else (w, hp)) rest := by
      simp [aggregateFold, hlook]
    by_cases hcmp : hp < info.priority
    · rw [hstep, if_pos hcmp]
      obtain ⟨w2, hp2, hfold, hmax, hcase⟩ := ih s info.priority hrest
      rw [hps] at hcmp hmax
      refine ⟨w2, hp2, hfold, ?_, ?_⟩
      · rw [hmax]
        simp only [maxPrio]
        omega
      · rcases hcase with ⟨rfl, hph⟩ | ⟨hmem, hpr⟩
        · exact Or.inr ⟨List.mem_cons_self _ _, by rw [hph, hps]⟩
        · exact Or.inr ⟨List.mem_cons_of_mem s hmem, hpr⟩
    · rw [hstep, if_neg hcmp]
      obtain ⟨w2, hp2, hfold, hmax, hcase⟩ := ih w hp hrest
      rw [hps] at hcmp
      refine ⟨w2, hp2, hfold, ?_, ?_⟩
      · rw [hmax]
        simp only [maxPrio]
        omega
      · rcases hcase with ⟨rfl, hph⟩ | ⟨hmem, hpr⟩
        · exact Or.inl ⟨rfl, hph⟩
        · exact Or.inr ⟨List.mem_cons_of_mem s hmem, hpr⟩

lemma statusPrio_le_maxPrio {xs : List String} {s : String} (h : s ∈ xs) :
    statusPrio s ≤ maxPrio xs := by
  induction xs with
  | nil => cases h
  | cons t rest ih =>
    rcases List.mem_cons.mp h with rfl | hmem
    · simp [maxPrio]
    · simp only [maxPrio]
      exact le_max_of_le_right (ih hmem)

lemma maxPrio_le_four {xs : List String} (h : ∀ s ∈ xs, s ∈ knownStatuses) :
    maxPrio xs ≤ 4 := by
  induction xs with
  | nil => simp [maxPrio]
  | cons t rest ih =>
    simp only [maxPrio, max_le_iff]
    exact ⟨statusPrio_le_four_of_known (h t (List.mem_cons_self t rest)),
      ih fun s hs => h s (List.mem_cons_of_mem t hs)⟩

lemma exists_statusPrio_eq_maxPrio {xs : List String} (h : maxPrio xs ≠ 0) :
    ∃ s ∈ xs, statusPrio s = maxPrio xs := by
  induction xs with
  | nil => simp [maxPrio] at h
  | cons t rest ih =>
    by_cases hle : maxPrio rest ≤ statusPrio t
    · refine ⟨t, List.mem_cons_self t rest, ?_⟩
      simp only [maxPrio]
      omega
    · have hne : maxPrio rest ≠ 0 := by omega
      obtain ⟨s, hmem, hps⟩ := ih hne
      refine ⟨s, List.mem_cons_of_mem t hmem, ?_⟩
      simp only [maxPrio]
      omega

lemma maxPrio_eq_of_perm {xs ys : List String} (h : xs.Perm ys) :
    maxPrio xs = maxPrio ys := by
  induction h with
  | nil => rfl
  | cons x _ ih => simp [maxPrio, ih]
  | swap x y l => simp only [maxPrio]; omega
  | trans _ _ ih1 ih2 => rw [ih1, ih2]

/-- On lists of known statuses, `getAggregateModuleStatus` returns the label
of the maximal priority present (and `OK` on the empty list). -/
lemma getAggregateModuleStatus_eq {xs : List String} (h : ∀ s ∈ xs, s ∈ knownStatuses) :
    getAggregateModuleStatus xs
      = some (if maxPrio xs = 0 then "OK" else labelOfPrio (maxPrio xs)) := by
  obtain ⟨w2, hp2, hfold, hmax, hcase⟩ := aggregateFold_spec xs "OK" 0 h
  rw [Nat.max_eq_right (Nat.zero_le _)] at hmax
  unfold getAggregateModuleStatus
  rw [hfold]
  rcases hcase with ⟨rfl, hph⟩ | ⟨hmem, hpr⟩
  · have h0 : maxPrio xs = 0 := by omega
    simp [h0]
  · have hknw : w2 ∈ knownStatuses := h w2 hmem
    have h1 : 1 ≤ statusPrio w2 := statusPrio_pos_of_known hknw
    have hne : maxPrio xs ≠ 0 := by omega
    rw [if_neg hne, ← hmax, ← hpr, labelOfPrio_statusPrio hknw]
    simp

/-- C1: on every indicator map whose values all lie in
{OK, DEGRADED, WARNING, CRITICAL}, `getAggregateModuleStatus` returns the
value of maximum severity under OK < DEGRADED < WARNING < CRITICAL: the
result is a present value (or `OK` for the empty map), its priority
dominates every entry, an all-`OK` map yields `OK`, any map containing
`CRITICAL` yields `CRITICAL`, and the result is independent of entry
order.  (Determinism over an unchanged map is immediate: the embedding is
a pure function of the value list.) -/
theorem getAggregateModuleStatus_max_severity (xs : List String)
    (h : ∀ s ∈ xs, s ∈ knownStatuses) :
    ∃ w, getAggregateModuleStatus xs = some w ∧
      (w ∈ xs ∨ w = "OK") ∧
      (∀ s ∈ xs, statusPrio s ≤ statusPrio w) ∧
      ((∀ s ∈ xs, s = "OK") → w = "OK") ∧
      ("CRITICAL" ∈ xs → w = "CRITICAL") ∧
      (∀ ys, xs.Perm ys → getAggregateModuleStatus ys = getAggregateModuleStatus xs) := by
  refine ⟨if maxPrio xs = 0 then "OK" else labelOfPrio (maxPrio xs),
    getAggregateModuleStatus_eq h, ?_, ?_, ?_, ?_, ?_⟩
  · by_cases h0 : maxPrio xs = 0
    · simp [h0]
    · obtain ⟨s, hmem, hps⟩ := exists_statusPrio_eq_maxPrio h0
      rw [if_neg h0, ← hps, labelOfPrio_statusPrio (h s hmem)]
      exact Or.inl hmem
  · intro s hs
    have hle : statusPrio s ≤ maxPrio xs := statusPrio_le_maxPrio hs
    by_cases h0 : maxPrio xs = 0
    · rw [if_pos h0]
      omega
    · rw [if_neg h0, statusPrio_labelOfPrio (by omega) (maxPrio_le_four h)]
      exact hle
  · intro hOK
    by_cases h0 : maxPrio xs = 0
    · simp [h0]
    · obtain ⟨s, hmem, hps⟩ := exists_statusPrio_eq_maxPrio h0
      rw [if_neg h0, ← hps, hOK s hmem]
      decide
  · intro hcrit
    have h4 : statusPrio "CRITICAL" ≤ maxPrio xs := statusPrio_le_maxPrio hcrit
    have hle4 : maxPrio xs ≤ 4 := maxPrio_le_four h
    have : maxPrio xs = 4 := by
      have : statusPrio "CRITICAL" = 4 := by decide
      omega
    rw [if_neg (by omega), this]
    decide
  · intro ys hperm
    have hys : ∀ s ∈ ys, s ∈ knownStatuses := fun s hs => h s (hperm.mem_iff.mpr hs)
    rw [getAggregateModuleStatus_eq hys, getAggregateModuleStatus_eq h,
      maxPrio_eq_of_perm hperm]

/-- Witness for C1 at the concrete map
{Overtemp: CRITICAL, Comm Lost: OK, Fan Fail: DEGRADED}. -/
theorem getAggregateModuleStatus_max_severity_witness :
    (∀ s ∈ ["CRITICAL", "OK", "DEGRADED"], s ∈ knownStatuses) ∧
      (∃ w, getAggregateModuleStatus ["CRITICAL", "OK", "DEGRADED"] = some w ∧
        (w ∈ ["CRITICAL", "OK", "DEGRADED"] ∨ w = "OK") ∧
        (∀ s ∈ ["CRITICAL", "OK", "DEGRADED"], statusPrio s ≤ statusPrio w) ∧
        ((∀ s ∈ ["CRITICAL", "OK", "DEGRADED"], s = "OK") → w = "OK") ∧
        ("CRITICAL" ∈ ["CRITICAL", "OK", "DEGRADED"] → w = "CRITICAL") ∧
        (∀ ys, List.Perm ["CRITICAL", "OK", "DEGRADED"] ys →
          getAggregateModuleStatus ys
            = getAggregateModuleStatus ["CRITICAL", "OK", "DEGRADED"])) :=
  ⟨by decide, getAggregateModuleStatus_max_severity ["CRITICAL", "OK", "DEGRADED"] (by decide)⟩

example : getAggregateModuleStatus ["toString"] = some "OK" := by decide

example : getAggregateModuleStatus ["constructor", "CRITICAL"] = some "CRITICAL" := by decide

lemma statusPriorityLookup_eq_some_none {s : String}
    (h : statusPriorityLookup s = some none) : STATUS_VALUES s = none := by
  unfold statusPriorityLookup at h
  cases hsv : STATUS_VALUES s with
  | some info => rw [hsv] at h; simp at h
  | none => rfl

lemma statusPriorityLookup_eq_some_some {s : String} {p : ℕ}
    (h : statusPriorityLookup s = some (some p)) :
    ∃ info, STATUS_VALUES s = some info ∧ info.priority = p := by
  unfold statusPriorityLookup at h
  cases hsv : STATUS_VALUES s with
  | some info =>
    rw [hsv] at h
    simp only [Option.some.injEq] at h
    exact ⟨info, rfl, h⟩
  | none =>
    rw [hsv] at h
    by_cases hp : s ∈ objectPrototypeKeys <;> simp [hp] at h

lemma aggregateFold_throw {xs : List String} :
    ∀ st : String × ℕ, (∃ s ∈ xs, statusPriorityLookup s = none) →
      aggregateFold st xs = none := by
  induction xs with
  | nil => rintro st ⟨s, hs, _⟩; cases hs
  | cons t rest ih =>
    rintro ⟨w, hp⟩ ⟨s, hs, hnone⟩
    cases hlt : statusPriorityLookup t with
    | none => simp [aggregateFold, hlt]
    | some sp =>
      have hmem : s ∈ rest := by
        rcases List.mem_cons.mp hs with rfl | hmem
        · rw [hlt] at hnone; exact Option.noConfusion hnone
        · exact hmem
      cases sp with
      | none =>
        simp only [aggregateFold, hlt]
        exact ih _ ⟨s, hmem, hnone⟩
      | some p =>
        simp only [aggregateFold, hlt]
        exact ih _ ⟨s, hmem, hnone⟩

lemma aggregateFold_filter_known {xs : List String} :
    ∀ st : String × ℕ, (∀ s ∈ xs, statusPriorityLookup s ≠ none) →
      aggregateFold st xs
        = aggregateFold st (xs.filter (fun s => (STATUS_VALUES s).isSome)) := by
  induction xs with
  | nil => intro st _; rfl
  | cons t rest ih =>
    rintro ⟨w, hp⟩ hall
    have ht := hall t (List.mem_cons_self t rest)
    have hrest : ∀ s ∈ rest, statusPriorityLookup s ≠ none :=
      fun s hs => hall s (List.mem_cons_of_mem t hs)
    cases hlt : statusPriorityLookup t with
    | none => exact absurd hlt ht
    | some sp =>
      cases sp with
      | none =>
        have hsv : STATUS_VALUES t = none := statusPriorityLookup_eq_some_none hlt
        rw [List.filter_cons]
        simp only [hsv, Option.isSome_none, Bool.false_eq_true, if_false]
        rw [show aggregateFold (w, hp) (t :: rest) = aggregateFold (w, hp) rest from by
          simp [aggregateFold, hlt]]
        exact ih _ hrest
      | some p =>
        obtain ⟨info, hsv, -⟩ := statusPriorityLookup_eq_some_some hlt
        rw [List.filter_cons]
        simp only [hsv, Option.isSome_some, if_true]
        simp only [aggregateFold, hlt]
        exact ih _ hrest

/-- C2 counterexample: the claim says an unknown severity token is treated
as lowest priority (`OK`) with only a warning and aggregation does not
throw; on the input {Overtemp: CRITICAL, Comm Lost: FAILED} the code
instead reaches `STATUS_VALUES['FAILED'].priority` — `'FAILED'` is
neither an own key nor inherited from `Object.prototype`, so the lookup
is `undefined` and the `.priority` access is a `TypeError` (embedded as
`none`): the function produces no status value at all. -/
theorem getAggregateModuleStatus_unknown_counterexample :
    getAggregateModuleStatus ["CRITICAL", "FAILED"] = none := by decide

/-- C2 (amended): for an indicator map containing severity tokens outside
{OK, DEGRADED, WARNING, CRITICAL}, the behavior splits on the token
string.  A token that is not an `Object.prototype` property name makes
`getAggregateModuleStatus` throw a `TypeError` at its priority lookup
(embedded as `none`).  A token that is an inherited `Object.prototype`
key yields a truthy object whose `.priority` is `undefined`; the
comparison `undefined > highestPriority` is false, so the entry is
silently skipped — the result is that of the map with only the
recognized entries kept — with no warning in either case. -/
theorem getAggregateModuleStatus_unknown_semantics :
    (∀ xs : List String, (∃ s ∈ xs, statusPriorityLookup s = none) →
        getAggregateModuleStatus xs = none) ∧
    (∀ xs : List String, (∀ s ∈ xs, statusPriorityLookup s ≠ none) →
        getAggregateModuleStatus xs
          = getAggregateModuleStatus (xs.filter (fun s => (STATUS_VALUES s).isSome))) := by
  constructor
  · intro xs h
    unfold getAggregateModuleStatus
    rw [aggregateFold_throw _ h]
    rfl
  · intro xs h
    unfold getAggregateModuleStatus
    rw [aggregateFold_filter_known _ h]

/-- Witness for the amended C2: the throwing half at
{Overtemp: OK, Comm Lost: FAILED}, and the silent-skip half at
{Overtemp: CRITICAL, Comm Lost: toString}. -/
theorem getAggregateModuleStatus_unknown_semantics_witness :
    ((∃ s ∈ ["OK", "FAILED"], statusPriorityLookup s = none) ∧
      getAggregateModuleStatus ["OK", "FAILED"] = none) ∧
    ((∀ s ∈ ["CRITICAL", "toString"], statusPriorityLookup s ≠ none) ∧
      getAggregateModuleStatus ["CRITICAL", "toString"]
        = getAggregateModuleStatus
            (["CRITICAL", "toString"].filter (fun s => (STATUS_VALUES s).isSome))) :=
  ⟨⟨by decide, getAggregateModuleStatus_unknown_semantics.1 ["OK", "FAILED"] (by decide)⟩,
   ⟨by decide,
     getAggregateModuleStatus_unknown_semantics.2 ["CRITICAL", "toString"] (by decide)⟩⟩

/-- `formatDuration` of `src/app.js` (lines 1414-1424): repeated
`Math.floor` of real-number division, then a largest-unit-first compact
rendering.  `%` on nonnegative operands agrees with the JavaScript
remainder. -/
def formatDuration (milliseconds : ℚ) : String :=
  let seconds : ℤ := ⌊milliseconds / 1000⌋
  let minutes : ℤ := ⌊(seconds : ℚ) / 60⌋
  let hours : ℤ := ⌊(minutes : ℚ) / 60⌋
  let days : ℤ := ⌊(hours : ℚ) / 24⌋
  if 0 < days then toString days ++ "d " ++ toString (hours % 24) ++ "h"
  else if 0 < hours then toString hours ++ "h " ++ toString (minutes % 60) ++ "m"
  else if 0 < minutes then toString minutes ++ "m"
  else toString seconds ++ "s"

/-- `getActiveDuration` of `src/app.js` (lines 1429-1433), with the
internal `new Date()` made an explicit `now` argument. -/
def getActiveDuration (activatedAt now : ℚ) : String :=
  "Active for " ++ formatDuration (now - activatedAt)

/-- Evaluation form of `formatDuration` on integer milliseconds (every
`⌊·/·⌋` becomes integer division, which on ℤ rounds toward negative
infinity for positive divisors, exactly like `Math.floor`). -/
def formatDurationInt (n : ℤ) : String :=
  let seconds : ℤ := n / 1000
  let minutes : ℤ := seconds / 60
  let hours : ℤ := minutes / 60
  let days : ℤ := hours / 24
  if 0 < days then toString days ++ "d " ++ toString (hours % 24) ++ "h"
  else if 0 < hours then toString hours ++ "h " ++ toString (minutes % 60) ++ "m"
  else if 0 < minutes then toString minutes ++ "m"
  else toString seconds ++ "s"

lemma floor_qdiv_1000 (m : ℤ) : ⌊(m : ℚ) / 1000⌋ = m / 1000 := by
  exact_mod_cast Rat.floor_intCast_div_natCast m 1000

lemma floor_qdiv_60 (m : ℤ) : ⌊(m : ℚ) / 60⌋ = m / 60 := by
  exact_mod_cast Rat.floor_intCast_div_natCast m 60

lemma floor_qdiv_24 (m : ℤ) : ⌊(m : ℚ) / 24⌋ = m / 24 := by
  exact_mod_cast Rat.floor_intCast_div_natCast m 24

lemma formatDuration_intCast (n : ℤ) : formatDuration (n : ℚ) = formatDurationInt n := by
  simp only [formatDuration, formatDurationInt, floor_qdiv_1000, floor_qdiv_60, floor_qdiv_24]

lemma toString_int_natCast (n : ℕ) : toString (n : ℤ) = toString n := rfl

/-- The formatting rule exactly as the specification words it: thresholds
and unit values by floor division on the nonnegative millisecond count. -/
def formatDurationSpec (ms : ℕ) : String :=
  if 86400000 ≤ ms then
    toString (ms / 86400000) ++ "d " ++ toString (ms / 3600000 % 24) ++ "h"
  else if 3600000 ≤ ms then
    toString (ms / 3600000) ++ "h " ++ toString (ms / 60000 % 60) ++ "m"
  else if 60000 ≤ ms then toString (ms / 60000) ++ "m"
  else toString (ms / 1000) ++ "s"

/-- C9: for every nonnegative integer millisecond span, `formatDuration`
renders `Nd Hh` when at least one day, else `Hh Mm` when at least one
hour, else `Mm` when at least one minute, else `Ss`, all unit values by
floor division largest-unit-first; in particular a 5-minute span renders
as `5m`. -/
theorem formatDuration_spec_correct :
    (∀ ms : ℕ, formatDuration (ms : ℚ) = formatDurationSpec ms) ∧
      formatDuration 300000 = "5m" := by
  have main : ∀ ms : ℕ, formatDuration (ms : ℚ) = formatDurationSpec ms := by
    intro ms
    have hcast : ((ms : ℤ) : ℚ) = (ms : ℚ) := by norm_cast
    rw [← hcast, formatDuration_intCast]
    simp only [formatDurationInt, formatDurationSpec]
    have e1 : (ms : ℤ) / 1000 = ((ms / 1000 : ℕ) : ℤ) := by norm_cast
    rw [e1]
    have e2 : ((ms / 1000 : ℕ) : ℤ) / 60 = ((ms / 1000 / 60 : ℕ) : ℤ) := by norm_cast
    rw [e2]
    have e3 : ((ms / 1000 / 60 : ℕ) : ℤ) / 60 = ((ms / 1000 / 60 / 60 : ℕ) : ℤ) := by norm_cast
    rw [e3]
    have e4 : ((ms / 1000 / 60 / 60 : ℕ) : ℤ) / 24
        = ((ms / 1000 / 60 / 60 / 24 : ℕ) : ℤ) := by norm_cast
    rw [e4]
    have m1 : ((ms / 1000 / 60 / 60 : ℕ) : ℤ) % 24
        = ((ms / 1000 / 60 / 60 % 24 : ℕ) : ℤ) := by norm_cast
    have m2 : ((ms / 1000 / 60 : ℕ) : ℤ) % 60 = ((ms / 1000 / 60 % 60 : ℕ) : ℤ) := by norm_cast
    rw [m1, m2]
    simp only [toString_int_natCast, Int.natCast_pos, Nat.div_div_eq_div_mul]
    norm_num
    simp only [Nat.div_pos_iff (show (86400000:ℕ) ≠ 0 by norm_num),
      Nat.div_pos_iff (show (3600000:ℕ) ≠ 0 by norm_num),
      Nat.div_pos_iff (show (60000:ℕ) ≠ 0 by norm_num)]
  refine ⟨main, ?_⟩
  have h5 : (300000 : ℚ) = ((300000 : ℕ) : ℚ) := by norm_num
  rw [h5, main 300000]
  decide

/-- C5 counterexample: the claim says the live-computed active duration is
clamped to zero when negative, so a future activation timestamp never
produces a negative duration string.  With `activatedAt` one second after
`now` the code (which has no clamp) renders `Active for -1s`. -/
theorem getActiveDuration_clamp_counterexample :
    getActiveDuration 1000 0 = "Active for -1s" ∧
      getActiveDuration 1000 0 ≠ "Active for 0s" := by
  have harg : ((0 : ℚ) - 1000) = ((-1000 : ℤ) : ℚ) := by norm_num
  have h : getActiveDuration 1000 0 = "Active for " ++ formatDurationInt (-1000) := by
    rw [getActiveDuration, harg, formatDuration_intCast]
  rw [h]
  refine ⟨by decide, by decide⟩

lemma floor_neg_of_neg {x : ℚ} (h : x < 0) : ⌊x⌋ < 0 := by
  have hle : (⌊x⌋ : ℚ) ≤ x := Int.floor_le x
  have hlt : (⌊x⌋ : ℚ) < 0 := lt_of_le_of_lt hle h
  exact_mod_cast hlt

lemma floor_div_neg {x : ℚ} {d : ℚ} (hx : x < 0) (hd : 0 < d) : ⌊x / d⌋ < 0 :=
  floor_neg_of_neg (div_neg_of_neg_of_pos hx hd)

/-- C5 (amended): `getActiveDuration` computes `now - activatedAt` with no
clamp; whenever `activatedAt` lies in the future the rendered string is a
negative seconds count (`Active for Ns` with `N = ⌊(now - t0)/1000⌋ < 0`).
The computation is total — it never raises — but the claimed clamp to zero
does not exist in the code. -/
theorem getActiveDuration_future_negative (activatedAt now : ℚ)
    (h : now < activatedAt) :
    getActiveDuration activatedAt now
        = "Active for " ++ (toString ⌊(now - activatedAt) / 1000⌋ ++ "s") ∧
      ⌊(now - activatedAt) / 1000⌋ < 0 := by
  have hms : now - activatedAt < 0 := sub_neg.mpr h
  have hsec : ⌊(now - activatedAt) / 1000⌋ < 0 := floor_div_neg hms (by norm_num)
  have hmin : ⌊((⌊(now - activatedAt) / 1000⌋ : ℚ)) / 60⌋ < 0 := by
    refine floor_div_neg ?_ (by norm_num)
    exact_mod_cast hsec
  have hhr : ⌊((⌊((⌊(now - activatedAt) / 1000⌋ : ℚ)) / 60⌋ : ℚ)) / 60⌋ < 0 := by
    refine floor_div_neg ?_ (by norm_num)
    exact_mod_cast hmin
  have hday : ⌊((⌊((⌊((⌊(now - activatedAt) / 1000⌋ : ℚ)) / 60⌋ : ℚ)) / 60⌋ : ℚ)) / 24⌋ < 0 := by
    refine floor_div_neg ?_ (by norm_num)
    exact_mod_cast hhr
  refine ⟨?_, hsec⟩
  rw [getActiveDuration]
  simp only [formatDuration]
  rw [if_neg (by omega), if_neg (by omega), if_neg (by omega)]

/-- Witness for the amended C5 one second in the future. -/
theorem getActiveDuration_future_negative_witness :
    (0 : ℚ) < 1000 ∧
      (getActiveDuration 1000 0
          = "Active for " ++ (toString ⌊((0 : ℚ) - 1000) / 1000⌋ ++ "s") ∧
        ⌊((0 : ℚ) - 1000) / 1000⌋ < 0) :=
  ⟨by norm_num, getActiveDuration_future_negative 1000 0 (by norm_num)⟩

/-- An alarm object as built by `generateAlarmsFromModuleData` in
`src/app.js`: `clearedAt` and `duration` are optional properties, absent on
active alarms. -/
structure AlarmRecord where
  moduleId : String
  type : String
  severity : String
  activatedAt : ℚ
  clearedAt : Option ℚ := none
  duration : Option String := none
deriving Repr, DecidableEq

/-- The `currentFilters` shape of `src/app.js` (lines 1034-1038). -/
structure FilterCriteria where
  severity : String
  timeRange : String
  module : String
deriving Repr, DecidableEq

/-- `DEFAULT_TIME_RANGE_HOURS` of `src/app.js` (line 1030). -/
def DEFAULT_TIME_RANGE_HOURS : ℚ := 24

/-- The own properties of the `hours` object literal inside `applyFilters`
(src/app.js lines 1149-1154); the full bracket lookup, prototype chain
included, is folded into `timeCutoff` below. -/
def filterHours (tok : String) : Option ℚ :=
  if tok = "1h" then some 1
  else if tok = "6h" then some 6
  else if tok = "24h" then some DEFAULT_TIME_RANGE_HOURS
  else if tok = "7d" then some 168
  else none

/-- The `timeCutoff` computation of `applyFilters` (src/app.js lines
1147-1157): `null` (outer `none`) unless the lowercase token differs from
`'all'`; otherwise a `Date` is built from
`now - (hours[timeRange] || DEFAULT_TIME_RANGE_HOURS) * 3600000`.  One of
the four own keys yields its (truthy) hour count; a key inherited from
`Object.prototype` yields a truthy non-number, defeating the `||`
fallback and making the arithmetic NaN — an Invalid Date, embedded as
inner `none`; any other key yields `undefined` and the fallback 24. -/
def timeCutoff (filters : FilterCriteria) (now : ℚ) : Option (Option ℚ) :=
  if filters.timeRange ≠ "all" then
    some (match filterHours filters.timeRange with
      | some h => some (now - h * (60 * 60 * 1000))
      | none =>
        if filters.timeRange ∈ objectPrototypeKeys then none
        else some (now - DEFAULT_TIME_RANGE_HOURS * (60 * 60 * 1000)))
  else none

/-- `timeCutoff && t < timeCutoff`: a `null` cutoff short-circuits to
false; a `Date` (Invalid included) is truthy, and `t < InvalidDate`
compares against NaN, which is also false. -/
def cutoffLt : Option (Option ℚ) → ℚ → Bool
  | some (some c), t => decide (t < c)
  | some none, _ => false
  | none, _ => false

/-- `timeCutoff && alarm.clearedAt < timeCutoff` when `clearedAt` may be
absent: in JavaScript `undefined < cutoff` is false, so the record passes. -/
def cutoffLtOpt (cutoff : Option (Option ℚ)) : Option ℚ → Bool
  | some t => cutoffLt cutoff t
  | none => false

/-- The active-alarm predicate of `applyFilters` (src/app.js lines
1160-1177): three early-return-false checks, then true. -/
def activeAlarmPasses (filters : FilterCriteria) (cutoff : Option (Option ℚ))
    (alarm : AlarmRecord) : Bool :=
  if filters.severity ≠ "ALL" ∧ alarm.severity ≠ filters.severity then false
  else if filters.module ≠ "ALL" ∧ alarm.moduleId ≠ filters.module then false
  else if cutoffLt cutoff alarm.activatedAt then false
  else true

/-- The cleared-alarm predicate of `applyFilters` (src/app.js lines
1180-1197): identical, but the time check reads `clearedAt`. -/
def clearedAlarmPasses (filters : FilterCriteria) (cutoff : Option (Option ℚ))
    (alarm : AlarmRecord) : Bool :=
  if filters.severity ≠ "ALL" ∧ alarm.severity ≠ filters.severity then false
  else if filters.module ≠ "ALL" ∧ alarm.moduleId ≠ filters.module then false
  else if cutoffLtOpt cutoff alarm.clearedAt then false
  else true

/-- `applyFilters` of `src/app.js` (lines 1143-1198), as a pure function
from the canonical `{active, cleared}` pair and the criteria to the
filtered pair (the source writes the result into `filteredAlarmsData`,
leaving `alarmsData` untouched). -/
def applyFilters (filters : FilterCriteria) (now : ℚ)
    (alarmsData : List AlarmRecord × List AlarmRecord) :
    List AlarmRecord × List AlarmRecord :=
  let cutoff := timeCutoff filters now
  (alarmsData.1.filter (fun alarm => activeAlarmPasses filters cutoff alarm),
   alarmsData.2.filter (fun alarm => clearedAlarmPasses filters cutoff alarm))

lemma activeAlarmPasses_some_iff (filters : FilterCriteria) (c : ℚ)
    (alarm : AlarmRecord) :
    activeAlarmPasses filters (some (some c)) alarm = true ↔
      (filters.severity = "ALL" ∨ alarm.severity = filters.severity) ∧
      (filters.module = "ALL" ∨ alarm.moduleId = filters.module) ∧
      c ≤ alarm.activatedAt := by
  unfold activeAlarmPasses
  simp only [cutoffLt]
  by_cases h1 : filters.severity ≠ "ALL" ∧ alarm.severity ≠ filters.severity
  · rw [if_pos h1]; simp; tauto
  · rw [if_neg h1]
    by_cases h2 : filters.module ≠ "ALL" ∧ alarm.moduleId ≠ filters.module
    · rw [if_pos h2]; simp; tauto
    · rw [if_neg h2]
      by_cases h3 : alarm.activatedAt < c
      · simp [h3, not_le.mpr h3]
      · simp [h3, not_lt.mp h3]; tauto

lemma activeAlarmPasses_noTime_iff (filters : FilterCriteria)
    (cutoff : Option (Option ℚ)) (alarm : AlarmRecord)
    (hfalse : cutoffLt cutoff alarm.activatedAt = false) :
    activeAlarmPasses filters cutoff alarm = true ↔
      (filters.severity = "ALL" ∨ alarm.severity = filters.severity) ∧
      (filters.module = "ALL" ∨ alarm.moduleId = filters.module) := by
  unfold activeAlarmPasses
  rw [hfalse]
  by_cases h1 : filters.severity ≠ "ALL" ∧ alarm.severity ≠ filters.severity
  · rw [if_pos h1]; simp; tauto
  · rw [if_neg h1]
    by_cases h2 : filters.module ≠ "ALL" ∧ alarm.moduleId ≠ filters.module
    · rw [if_pos h2]; simp; tauto
    · rw [if_neg h2]; simp; tauto

lemma clearedAlarmPasses_some_iff (filters : FilterCriteria) (c : ℚ)
    (alarm : AlarmRecord) (ct : ℚ) (hct : alarm.clearedAt = some ct) :
    clearedAlarmPasses filters (some (some c)) alarm = true ↔
      (filters.severity = "ALL" ∨ alarm.severity = filters.severity) ∧
      (filters.module = "ALL" ∨ alarm.moduleId = filters.module) ∧
      c ≤ ct := by
  unfold clearedAlarmPasses
  rw [hct]
  simp only [cutoffLtOpt, cutoffLt]
  by_cases h1 : filters.severity ≠ "ALL" ∧ alarm.severity ≠ filters.severity
  · rw [if_pos h1]; simp; tauto
  · rw [if_neg h1]
    by_cases h2 : filters.module ≠ "ALL" ∧ alarm.moduleId ≠ filters.module
    · rw [if_pos h2]; simp; tauto
    · rw [if_neg h2]
      by_cases h3 : ct < c
      · simp [h3, not_le.mpr h3]
      · simp [h3, not_lt.mp h3]; tauto

lemma clearedAlarmPasses_noTime_iff (filters : FilterCriteria)
    (cutoff : Option (Option ℚ)) (alarm : AlarmRecord)
    (hfalse : cutoffLtOpt cutoff alarm.clearedAt = false) :
    clearedAlarmPasses filters cutoff alarm = true ↔
      (filters.severity = "ALL" ∨ alarm.severity = filters.severity) ∧
      (filters.module = "ALL" ∨ alarm.moduleId = filters.module) := by
  unfold clearedAlarmPasses
  rw [hfalse]
  by_cases h1 : filters.severity ≠ "ALL" ∧ alarm.severity ≠ filters.severity
  · rw [if_pos h1]; simp; tauto
  · rw [if_neg h1]
    by_cases h2 : filters.module ≠ "ALL" ∧ alarm.moduleId ≠ filters.module
    · rw [if_pos h2]; simp; tauto
    · rw [if_neg h2]; simp; tauto

lemma cutoffLt_eq_false_of_noTime {cutoff : Option (Option ℚ)}
    (h : cutoff = none ∨ cutoff = some none) (t : ℚ) :
    cutoffLt cutoff t = false := by
  rcases h with rfl | rfl <;> rfl

lemma cutoffLtOpt_eq_false_of_noTime {cutoff : Option (Option ℚ)}
    (h : cutoff = none ∨ cutoff = some none) (oct : Option ℚ) :
    cutoffLtOpt cutoff oct = false := by
  cases oct with
  | none => rfl
  | some t => rcases h with rfl | rfl <;> rfl

/-- The claim-side severity predicate: pass on `ALL` or an exact match. -/
def severityPasses (filters : FilterCriteria) (alarm : AlarmRecord) : Bool :=
  decide (filters.severity = "ALL" ∨ alarm.severity = filters.severity)

/-- The claim-side module predicate: pass on `ALL` or an exact unit id. -/
def modulePasses (filters : FilterCriteria) (alarm : AlarmRecord) : Bool :=
  decide (filters.module = "ALL" ∨ alarm.moduleId = filters.module)

/-- The claim-side time predicate on the active set. -/
def activeTimePasses (filters : FilterCriteria) (now : ℚ) (alarm : AlarmRecord) : Bool :=
  !cutoffLt (timeCutoff filters now) alarm.activatedAt

/-- The claim-side time predicate on the cleared set. -/
def clearedTimePasses (filters : FilterCriteria) (now : ℚ) (alarm : AlarmRecord) : Bool :=
  !cutoffLtOpt (timeCutoff filters now) alarm.clearedAt

lemma activeAlarmPasses_eq_and (filters : FilterCriteria) (now : ℚ) (alarm : AlarmRecord) :
    activeAlarmPasses filters (timeCutoff filters now) alarm
      = (severityPasses filters alarm && modulePasses filters alarm
          && activeTimePasses filters now alarm) := by
  unfold activeAlarmPasses severityPasses modulePasses activeTimePasses
  by_cases h1 : filters.severity ≠ "ALL" ∧ alarm.severity ≠ filters.severity
  · rw [if_pos h1]
    obtain ⟨ha, hb⟩ := h1
    simp [ha, hb]
  · rw [if_neg h1]
    rw [Classical.not_and_iff_or_not_not, not_ne_iff, not_ne_iff] at h1
    by_cases h2 : filters.module ≠ "ALL" ∧ alarm.moduleId ≠ filters.module
    · rw [if_pos h2]
      obtain ⟨ha, hb⟩ := h2
      simp [ha, hb]
    · rw [if_neg h2]
      rw [Classical.not_and_iff_or_not_not, not_ne_iff, not_ne_iff] at h2
      cases h3 : cutoffLt (timeCutoff filters now) alarm.activatedAt <;>
        simp [h3, h1, h2]

lemma clearedAlarmPasses_eq_and (filters : FilterCriteria) (now : ℚ) (alarm : AlarmRecord) :
    clearedAlarmPasses filters (timeCutoff filters now) alarm
      = (severityPasses filters alarm && modulePasses filters alarm
          && clearedTimePasses filters now alarm) := by
  unfold clearedAlarmPasses severityPasses modulePasses clearedTimePasses
  by_cases h1 : filters.severity ≠ "ALL" ∧ alarm.severity ≠ filters.severity
  · rw [if_pos h1]
    obtain ⟨ha, hb⟩ := h1
    simp [ha, hb]
  · rw [if_neg h1]
    rw [Classical.not_and_iff_or_not_not, not_ne_iff, not_ne_iff] at h1
    by_cases h2 : filters.module ≠ "ALL" ∧ alarm.moduleId ≠ filters.module
    · rw [if_pos h2]
      obtain ⟨ha, hb⟩ := h2
      simp [ha, hb]
    · rw [if_neg h2]
      rw [Classical.not_and_iff_or_not_not, not_ne_iff, not_ne_iff] at h2
      cases h3 : cutoffLtOpt (timeCutoff filters now) alarm.clearedAt <;>
        simp [h3, h1, h2]

/-- C6: for every input `{active, cleared}` pair and every filter
criteria, the filtered result is a sublist (hence a subset, in the input
order, without invented records) of the corresponding input list, and each
output equals the input filtered by the conjunction (logical AND) of the
severity, module and time-range predicates.  The embedding is a pure
function: the canonical input pair is not mutated — the source writes the
result into the separate `filteredAlarmsData` object. -/
theorem applyFilters_subset_and_conj (filters : FilterCriteria) (now : ℚ)
    (act clr : List AlarmRecord) :
    (applyFilters filters now (act, clr)).1.Sublist act ∧
    (applyFilters filters now (act, clr)).2.Sublist clr ∧
    (applyFilters filters now (act, clr)).1 ⊆ act ∧
    (applyFilters filters now (act, clr)).2 ⊆ clr ∧
    (applyFilters filters now (act, clr)).1
      = act.filter (fun r => severityPasses filters r && modulePasses filters r
          && activeTimePasses filters now r) ∧
    (applyFilters filters now (act, clr)).2
      = clr.filter (fun r => severityPasses filters r && modulePasses filters r
          && clearedTimePasses filters now r) := by
  refine ⟨List.filter_sublist act, List.filter_sublist clr,
    (List.filter_sublist act).subset, (List.filter_sublist clr).subset, ?_, ?_⟩
  · exact List.filter_congr fun r _ => activeAlarmPasses_eq_and filters now r
  · exact List.filter_congr fun r _ => clearedAlarmPasses_eq_and filters now r

/-- The hour thresholds exactly as the claim words them (`all` carries no
cutoff). -/
def claimedHours (tok : String) : Option ℚ :=
  if tok = "1h" then some 1
  else if tok = "6h" then some 6
  else if tok = "24h" then some 24
  else if tok = "7d" then some 168
  else none

lemma applyFilters_mem_some (filters : FilterCriteria) (now : ℚ)
    (act clr : List AlarmRecord) (r : AlarmRecord) (c : ℚ)
    (hc : timeCutoff filters now = some (some c)) :
    (r ∈ (applyFilters filters now (act, clr)).1 ↔
      r ∈ act ∧ (filters.severity = "ALL" ∨ r.severity = filters.severity) ∧
        (filters.module = "ALL" ∨ r.moduleId = filters.module) ∧ c ≤ r.activatedAt) ∧
    (∀ ct, r.clearedAt = some ct →
      (r ∈ (applyFilters filters now (act, clr)).2 ↔
        r ∈ clr ∧ (filters.severity = "ALL" ∨ r.severity = filters.severity) ∧
          (filters.module = "ALL" ∨ r.moduleId = filters.module) ∧ c ≤ ct)) := by
  constructor
  · simp only [applyFilters, List.mem_filter, hc, activeAlarmPasses_some_iff]
  · intro ct hct
    simp only [applyFilters, List.mem_filter, hc, clearedAlarmPasses_some_iff _ _ _ _ hct]

lemma applyFilters_mem_noCutoff (filters : FilterCriteria) (now : ℚ)
    (act clr : List AlarmRecord) (r : AlarmRecord)
    (hc : timeCutoff filters now = none ∨ timeCutoff filters now = some none) :
    (r ∈ (applyFilters filters now (act, clr)).1 ↔
      r ∈ act ∧ (filters.severity = "ALL" ∨ r.severity = filters.severity) ∧
        (filters.module = "ALL" ∨ r.moduleId = filters.module)) ∧
    (∀ ct, r.clearedAt = some ct →
      (r ∈ (applyFilters filters now (act, clr)).2 ↔
        r ∈ clr ∧ (filters.severity = "ALL" ∨ r.severity = filters.severity) ∧
          (filters.module = "ALL" ∨ r.moduleId = filters.module))) := by
  have hfa : cutoffLt (timeCutoff filters now) r.activatedAt = false :=
    cutoffLt_eq_false_of_noTime hc r.activatedAt
  have hfc : cutoffLtOpt (timeCutoff filters now) r.clearedAt = false :=
    cutoffLtOpt_eq_false_of_noTime hc r.clearedAt
  constructor
  · simp only [applyFilters, List.mem_filter,
      activeAlarmPasses_noTime_iff filters _ r hfa]
  · intro ct hct
    simp only [applyFilters, List.mem_filter,
      clearedAlarmPasses_noTime_iff filters _ r hfc]

lemma timeCutoff_token (sev md tok : String) (now h : ℚ)
    (htok : tok ≠ "all") (hh : filterHours tok = some h) :
    timeCutoff ⟨sev, tok, md⟩ now = some (some (now - h * 3600000)) := by
  simp only [timeCutoff, hh]
  rw [if_pos htok]
  norm_num

lemma timeCutoff_all (sev md : String) (now : ℚ) :
    timeCutoff ⟨sev, "all", md⟩ now = none := by
  simp [timeCutoff]

/-- C3 (amended): the time-range token maps to an hour threshold
1h→1, 6h→6, 24h→24, 7d→168, and the lowercase token `all` (not the
uppercase `ALL` the claim names — see the counterexample and C10) applies
no time cutoff; with cutoff = now minus the threshold in hours, an active
record passes iff `activatedAt ≥ cutoff` and a cleared record passes iff
`clearedAt ≥ cutoff`, in conjunction with the severity and module
predicates. -/
theorem applyFilters_timeRange_semantics (filters : FilterCriteria) (now : ℚ)
    (act clr : List AlarmRecord) (r : AlarmRecord)
    (htok : filters.timeRange ∈ ["1h", "6h", "24h", "7d", "all"]) :
    (r ∈ (applyFilters filters now (act, clr)).1 ↔
      r ∈ act ∧ (filters.severity = "ALL" ∨ r.severity = filters.severity) ∧
        (filters.module = "ALL" ∨ r.moduleId = filters.module) ∧
        (∀ hrs ∈ claimedHours filters.timeRange, now - hrs * 3600000 ≤ r.activatedAt)) ∧
    (∀ ct, r.clearedAt = some ct →
      (r ∈ (applyFilters filters now (act, clr)).2 ↔
        r ∈ clr ∧ (filters.severity = "ALL" ∨ r.severity = filters.severity) ∧
          (filters.module = "ALL" ∨ r.moduleId = filters.module) ∧
          (∀ hrs ∈ claimedHours filters.timeRange, now - hrs * 3600000 ≤ ct))) := by
  obtain ⟨sev, tr, md⟩ := filters
  simp only [List.mem_cons, List.not_mem_nil, or_false] at htok
  rcases htok with rfl | rfl | rfl | rfl | rfl
  · have hc := timeCutoff_token sev md "1h" now 1 (by decide) (by simp [filterHours])
    obtain ⟨hact, hclr⟩ := applyFilters_mem_some _ now act clr r _ hc
    constructor
    · rw [hact]
      simp [claimedHours]
    · intro ct hct
      rw [hclr ct hct]
      simp [claimedHours]
  · have hc := timeCutoff_token sev md "6h" now 6 (by decide) (by simp [filterHours])
    obtain ⟨hact, hclr⟩ := applyFilters_mem_some _ now act clr r _ hc
    constructor
    · rw [hact]
      simp [claimedHours]
    · intro ct hct
      rw [hclr ct hct]
      simp [claimedHours]
  · have hc := timeCutoff_token sev md "24h" now 24 (by decide)
      (by simp [filterHours, DEFAULT_TIME_RANGE_HOURS])
    obtain ⟨hact, hclr⟩ := applyFilters_mem_some _ now act clr r _ hc
    constructor
    · rw [hact]
      simp [claimedHours]
    · intro ct hct
      rw [hclr ct hct]
      simp [claimedHours]
  · have hc := timeCutoff_token sev md "7d" now 168 (by decide) (by simp [filterHours])
    obtain ⟨hact, hclr⟩ := applyFilters_mem_some _ now act clr r _ hc
    constructor
    · rw [hact]
      simp [claimedHours]
    · intro ct hct
      rw [hclr ct hct]
      simp [claimedHours]
  · have hc := timeCutoff_all sev md now
    obtain ⟨hact, hclr⟩ := applyFilters_mem_noCutoff _ now act clr r (Or.inl hc)
    constructor
    · rw [hact]
      simp [claimedHours]
    · intro ct hct
      rw [hclr ct hct]
      simp [claimedHours]

/-- An alarm activated at time 0 (two hours before a `now` of 7200000 ms in
the scenario below). -/
def alarmTwoHoursOld : AlarmRecord :=
  { moduleId := "M001", type := "Overtemp", severity := "CRITICAL", activatedAt := 0 }

/-- Witness for the amended C3 at the spec scenario: time-range `1h`, an
alarm activated 2 hours (7200000 ms) before `now`. -/
theorem applyFilters_timeRange_semantics_witness :
    ((⟨"ALL", "1h", "ALL"⟩ : FilterCriteria).timeRange ∈ ["1h", "6h", "24h", "7d", "all"]) ∧
    ((alarmTwoHoursOld ∈
        (applyFilters ⟨"ALL", "1h", "ALL"⟩ 7200000 ([alarmTwoHoursOld], [])).1 ↔
      alarmTwoHoursOld ∈ [alarmTwoHoursOld] ∧
        (("ALL" : String) = "ALL" ∨ alarmTwoHoursOld.severity = "ALL") ∧
        (("ALL" : String) = "ALL" ∨ alarmTwoHoursOld.moduleId = "ALL") ∧
        (∀ hrs ∈ claimedHours "1h",
          7200000 - hrs * 3600000 ≤ alarmTwoHoursOld.activatedAt)) ∧
    (∀ ct, alarmTwoHoursOld.clearedAt = some ct →
      (alarmTwoHoursOld ∈
          (applyFilters ⟨"ALL", "1h", "ALL"⟩ 7200000 ([alarmTwoHoursOld], [])).2 ↔
        alarmTwoHoursOld ∈ ([] : List AlarmRecord) ∧
          (("ALL" : String) = "ALL" ∨ alarmTwoHoursOld.severity = "ALL") ∧
          (("ALL" : String) = "ALL" ∨ alarmTwoHoursOld.moduleId = "ALL") ∧
          (∀ hrs ∈ claimedHours "1h", 7200000 - hrs * 3600000 ≤ ct)))) :=
  ⟨by decide,
    applyFilters_timeRange_semantics ⟨"ALL", "1h", "ALL"⟩ 7200000
      [alarmTwoHoursOld] [] alarmTwoHoursOld (by decide)⟩

/-- The spec scenario made concrete: under time-range `1h` the two-hour-old
alarm is excluded from the filtered active list. -/
lemma applyFilters_1h_excludes_two_hour_old :
    (applyFilters ⟨"ALL", "1h", "ALL"⟩ 7200000 ([alarmTwoHoursOld], [])).1 = [] := by
  have hpos : ((0:ℚ) < 7200000 - 1 * (60 * 60 * 1000)) := by norm_num
  simp [applyFilters, activeAlarmPasses, timeCutoff, filterHours, cutoffLt,
    alarmTwoHoursOld, hpos]
  norm_num

/-- C3 counterexample: the claim says the time-range token `ALL` applies no
time cutoff, so with severity and module filters at `ALL` every input
record stays in the filtered active set.  With `timeRange = 'ALL'`
(uppercase, exactly as the claim and the UI spell it) and a record
activated 48 hours before `now`, `applyFilters` — which only recognizes
the lowercase `'all'` and otherwise falls back to the 24-hour default
cutoff — drops the record. -/
theorem applyFilters_ALL_token_counterexample :
    ¬ (∀ (filters : FilterCriteria) (now : ℚ) (act clr : List AlarmRecord)
        (r : AlarmRecord), filters.timeRange = "ALL" →
        (r ∈ (applyFilters filters now (act, clr)).1 ↔
          r ∈ act ∧ (filters.severity = "ALL" ∨ r.severity = filters.severity) ∧
            (filters.module = "ALL" ∨ r.moduleId = filters.module))) := by
  intro hclaim
  have h := hclaim ⟨"ALL", "ALL", "ALL"⟩ 172800000 [alarmTwoHoursOld] []
    alarmTwoHoursOld rfl
  have hmem : alarmTwoHoursOld ∈
      (applyFilters ⟨"ALL", "ALL", "ALL"⟩ 172800000 ([alarmTwoHoursOld], [])).1 :=
    h.mpr ⟨List.mem_singleton.mpr rfl, Or.inl rfl, Or.inl rfl⟩
  have hpos : ((0:ℚ) < 172800000 - 24 * (60 * 60 * 1000)) := by norm_num
  revert hmem
  simp [applyFilters, activeAlarmPasses, timeCutoff, filterHours, cutoffLt,
    DEFAULT_TIME_RANGE_HOURS, objectPrototypeKeys, alarmTwoHoursOld, hpos]

lemma protoKey_ne_all {tok : String} (h : tok ∈ objectPrototypeKeys) : tok ≠ "all" := by
  simp only [objectPrototypeKeys, List.mem_cons, List.not_mem_nil, or_false] at h
  rcases h with rfl | rfl | rfl | rfl | rfl | rfl | rfl | rfl | rfl | rfl | rfl | rfl <;>
    decide

lemma protoKey_filterHours_none {tok : String} (h : tok ∈ objectPrototypeKeys) :
    filterHours tok = none := by
  simp only [objectPrototypeKeys, List.mem_cons, List.not_mem_nil, or_false] at h
  rcases h with rfl | rfl | rfl | rfl | rfl | rfl | rfl | rfl | rfl | rfl | rfl | rfl <;>
    decide

/-- C10 counterexample: the claim says every token outside the five
lowercase strings silently falls back to the 24-hour cutoff.  At the
token `constructor` — an `Object.prototype` key, so `hours['constructor']`
is an inherited truthy value that defeats `|| DEFAULT_TIME_RANGE_HOURS`,
making the cutoff an Invalid Date against which every comparison is
false — a record activated 48 hours before `now` is kept, while the
claimed 24-hour cutoff (shown at the token `24h`) drops it. -/
theorem applyFilters_proto_token_counterexample :
    (applyFilters ⟨"ALL", "constructor", "ALL"⟩ 172800000
        ([alarmTwoHoursOld], [])).1 = [alarmTwoHoursOld] ∧
      (applyFilters ⟨"ALL", "24h", "ALL"⟩ 172800000 ([alarmTwoHoursOld], [])).1 = [] := by
  constructor
  · simp [applyFilters, activeAlarmPasses, timeCutoff, filterHours, cutoffLt,
      objectPrototypeKeys, alarmTwoHoursOld]
  · have hpos : ((0:ℚ) < 172800000 - 24 * (60 * 60 * 1000)) := by norm_num
    simp [applyFilters, activeAlarmPasses, timeCutoff, filterHours, cutoffLt,
      DEFAULT_TIME_RANGE_HOURS, alarmTwoHoursOld, hpos]

/-- C10 (amended): a time-range token outside the five lowercase strings
splits on whether the token is a key inherited from `Object.prototype`.
Any other unknown token — the uppercase `ALL` included — yields
`undefined`, so `|| DEFAULT_TIME_RANGE_HOURS` silently gives the 24-hour
cutoff and the call behaves exactly like the token `24h`.  An inherited
key (`constructor`, `toString`, `__proto__`, ...) is truthy, defeats the
fallback, and makes the cutoff an Invalid Date (NaN time value): every
comparison against it is false, so no time cutoff is applied at all and
the call behaves exactly like the token `all`.  Filtering is total — it
never fails — over arbitrary token strings. -/
theorem applyFilters_unknown_token_semantics :
    (∀ (sev md tok : String) (now : ℚ) (act clr : List AlarmRecord),
      tok ∉ ["all", "1h", "6h", "24h", "7d"] → tok ∉ objectPrototypeKeys →
        timeCutoff ⟨sev, tok, md⟩ now
            = some (some (now - DEFAULT_TIME_RANGE_HOURS * (60 * 60 * 1000))) ∧
          applyFilters ⟨sev, tok, md⟩ now (act, clr)
            = applyFilters ⟨sev, "24h", md⟩ now (act, clr)) ∧
    (∀ (sev md tok : String) (now : ℚ) (act clr : List AlarmRecord),
      tok ∈ objectPrototypeKeys →
        timeCutoff ⟨sev, tok, md⟩ now = some none ∧
          applyFilters ⟨sev, tok, md⟩ now (act, clr)
            = applyFilters ⟨sev, "all", md⟩ now (act, clr)) := by
  constructor
  · intro sev md tok now act clr h hproto
    simp only [List.mem_cons, List.not_mem_nil, or_false, not_or] at h
    obtain ⟨hall, h1, h6, h24, h7⟩ := h
    have hfh : filterHours tok = none := by
      simp only [filterHours, if_neg h1, if_neg h6, if_neg h24, if_neg h7]
    have hcut : timeCutoff ⟨sev, tok, md⟩ now
        = some (some (now - DEFAULT_TIME_RANGE_HOURS * (60 * 60 * 1000))) := by
      simp only [timeCutoff, hfh]
      rw [if_pos hall, if_neg hproto]
    have hcut24 : timeCutoff ⟨sev, "24h", md⟩ now
        = some (some (now - DEFAULT_TIME_RANGE_HOURS * (60 * 60 * 1000))) := by
      simp [timeCutoff, filterHours]
    refine ⟨hcut, ?_⟩
    simp only [applyFilters, hcut, hcut24]
    rfl
  · intro sev md tok now act clr hproto
    have hcut : timeCutoff ⟨sev, tok, md⟩ now = some none := by
      simp only [timeCutoff, protoKey_filterHours_none hproto]
      rw [if_pos (protoKey_ne_all hproto), if_pos hproto]
    have hcutAll : timeCutoff ⟨sev, "all", md⟩ now = none := timeCutoff_all sev md now
    refine ⟨hcut, ?_⟩
    simp only [applyFilters, hcut, hcutAll]
    rfl

/-- Witness for the amended C10: the fallback half at the uppercase token
`ALL`, and the no-cutoff half at the inherited key `constructor`. -/
theorem applyFilters_unknown_token_semantics_witness :
    (("ALL" ∉ ["all", "1h", "6h", "24h", "7d"]) ∧ ("ALL" ∉ objectPrototypeKeys) ∧
      (timeCutoff ⟨"OK", "ALL", "M001"⟩ 0
          = some (some (0 - DEFAULT_TIME_RANGE_HOURS * (60 * 60 * 1000))) ∧
        applyFilters ⟨"OK", "ALL", "M001"⟩ 0 ([], [])
          = applyFilters ⟨"OK", "24h", "M001"⟩ 0 ([], []))) ∧
    (("constructor" ∈ objectPrototypeKeys) ∧
      (timeCutoff ⟨"OK", "constructor", "M001"⟩ 0 = some none ∧
        applyFilters ⟨"OK", "constructor", "M001"⟩ 0 ([], [])
          = applyFilters ⟨"OK", "all", "M001"⟩ 0 ([], []))) :=
  ⟨⟨by decide, by decide,
    applyFilters_unknown_token_semantics.1 "OK" "M001" "ALL" 0 [] []
      (by decide) (by decide)⟩,
   ⟨by decide,
    applyFilters_unknown_token_semantics.2 "OK" "M001" "constructor" 0 [] []
      (by decide)⟩⟩

/-- The global replace `/"/g` with a doubled quote, on the character
list of the field. -/
def doubleQuote : List Char → List Char
  | [] => []
  | c :: cs => if c = '"' then '"' :: '"' :: doubleQuote cs else c :: doubleQuote cs

/-- `escapeCSV` of `src/app.js` (lines 1264-1271), on character lists:
`includes` of a single-character needle is list membership; a field
containing a comma, double quote or line break is wrapped in quotes with
internal quotes doubled, otherwise returned unchanged.  (The
`null/undefined -> empty string` guard of the source concerns absent
fields, handled via `Option` at every call site.) -/
def escapeCSVChars (cs : List Char) : List Char :=
  if ',' ∈ cs ∨ '"' ∈ cs ∨ '\n' ∈ cs then '"' :: (doubleQuote cs ++ ['"'])
  else cs

/-- `escapeCSV` on strings. -/
def escapeCSV (field : String) : String := String.mk (escapeCSVChars field.data)

example : escapeCSV "M,01" = "\"M,01\"" := by decide

/-- Collapse doubled quotes back — the inverse direction of the standard
CSV escaping rule, used to state the round-trip property. -/
def collapseQuotes : List Char → List Char
  | [] => []
  | [c] => [c]
  | c1 :: c2 :: cs =>
    if c1 = '"' ∧ c2 = '"' then '"' :: collapseQuotes cs
    else c1 :: collapseQuotes (c2 :: cs)

/-- Read back one CSV field: a field starting with a quote has its
surrounding quotes stripped and its doubled quotes collapsed; any other
field is itself. -/
def parseCSVField (cs : List Char) : List Char :=
  match cs with
  | [] => []
  | c :: rest => if c = '"' then collapseQuotes rest.dropLast else c :: rest

lemma collapseQuotes_cons_ne {c : Char} (h : c ≠ '"') (rest : List Char) :
    collapseQuotes (c :: rest) = c :: collapseQuotes rest := by
  cases rest with
  | nil => rfl
  | cons c2 cs => simp [collapseQuotes, h]

lemma collapseQuotes_doubleQuote (cs : List Char) :
    collapseQuotes (doubleQuote cs) = cs := by
  induction cs with
  | nil => rfl
  | cons c cs ih =>
    by_cases hc : c = '"'
    · subst hc
      rw [doubleQuote, if_pos rfl]
      have hstep : collapseQuotes ('"' :: '"' :: doubleQuote cs)
          = '"' :: collapseQuotes (doubleQuote cs) := by
        cases hdq : doubleQuote cs with
        | nil => rfl
        | cons d ds => simp [collapseQuotes]
      rw [hstep, ih]
    · rw [doubleQuote, if_neg hc, collapseQuotes_cons_ne hc, ih]

/-- The `ALARM_MESSAGES` table of `src/app.js` (lines 1041-1054). -/
def ALARM_MESSAGES (statusType : String) : Option String :=
  if statusType = "Overtemp" then some "Overtemp threshold exceeded"
  else if statusType = "Comm Lost" then some "Communication timeout"
  else if statusType = "Voltage Level" then some "Voltage out of range"
  else if statusType = "Fan Fail" then some "Fan failure detected"
  else if statusType = "Power Supply Error" then some "Power supply error"
  else if statusType = "Vdc Fault" then some "DC voltage fault"
  else if statusType = "Current Level" then some "Current level abnormal"
  else if statusType = "Thermal Status" then some "Thermal status warning"
  else if statusType = "Gating OK" then some "Gating signal error"
  else if statusType = "Sync Fault" then some "Synchronization fault"
  else if statusType = "Interlock" then some "Interlock triggered"
  else if statusType = "Self Test" then some "Self test failure"
  else none

/-- `getAlarmMessage` of `src/app.js` (lines 1313-1315):
`ALARM_MESSAGES[statusType] || statusType` (no stored message is an empty
string, so `||` is exactly the default on absence). -/
def getAlarmMessage (statusType : String) : String :=
  (ALARM_MESSAGES statusType).getD statusType

/-- `String(n).padStart(2, '0')` for a small nonnegative component. -/
def pad2 (n : ℕ) : String := if n < 10 then "0" ++ toString n else toString n

/-- Proleptic-Gregorian civil date from days since 1970-01-01 (the date
computation behind `Date.prototype.getFullYear/getMonth/getDate`); `/` on
ℤ rounds toward negative infinity for these positive divisors. -/
def civilFromDays (z0 : Int) : Int × Int × Int :=
  let z := z0 + 719468
  let era : Int := z / 146097
  let doe : Int := z - era * 146097
  let yoe : Int := (doe - doe / 1460 + doe / 36524 - doe / 146096) / 365
  let y : Int := yoe + era * 400
  let doy : Int := doe - (365 * yoe + yoe / 4 - yoe / 100)
  let mp : Int := (5 * doy + 2) / 153
  let d : Int := doy - (153 * mp + 2) / 5 + 1
  let m : Int := mp + (if mp < 10 then 3 else -9)
  (y + (if m ≤ 2 then 1 else 0), m, d)

/-- `formatTimestamp` of `src/app.js` (lines 1438-1446).  The source
renders local time; the time-zone offset is environment input and the
embedding renders offset zero (UTC) — no claim proved here depends on the
rendered text. -/
def formatTimestamp (date : ℚ) : String :=
  let tv : Int := ⌊date⌋
  let civil := civilFromDays (tv / 86400000)
  let hours : Int := (tv / 3600000) % 24
  let minutes : Int := (tv / 60000) % 60
  let seconds : Int := (tv / 1000) % 60
  toString civil.1 ++ "-" ++ pad2 civil.2.1.toNat ++ "-" ++ pad2 civil.2.2.toNat
    ++ " " ++ pad2 hours.toNat ++ ":" ++ pad2 minutes.toNat ++ ":" ++ pad2 seconds.toNat

/-- JavaScript truthiness of a possibly-absent string property
(`if (alarm.duration)`): absent and empty are falsy. -/
def jsTruthyStr : Option String → Bool
  | none => false
  | some s => s != ""

/-- The fixed CSV header of `exportToCSV` (src/app.js line 1216). -/
def CSV_HEADER : String :=
  "Severity,Module,Status,Triggered Time,Cleared Time,Duration,Message"

/-- One data row of `exportToCSV` (src/app.js lines 1219-1236), without
the trailing newline the template literal appends. -/
def exportRow (now : ℚ) (alarm : AlarmRecord) (status : String) : String :=
  let severity := escapeCSV alarm.severity
  let moduleF := escapeCSV alarm.moduleId
  let statusF := escapeCSV status
  let triggeredTime := escapeCSV (formatTimestamp alarm.activatedAt)
  let clearedTime :=
    match alarm.clearedAt with
    | some c => escapeCSV (formatTimestamp c)
    | none => ""
  let duration :=
    if jsTruthyStr alarm.duration then escapeCSV (alarm.duration.getD "")
    else if status = "Active" then escapeCSV (getActiveDuration alarm.activatedAt now)
    else ""
  let message := escapeCSV (getAlarmMessage alarm.type)
  severity ++ "," ++ moduleF ++ "," ++ statusF ++ "," ++ triggeredTime ++ ","
    ++ clearedTime ++ "," ++ duration ++ "," ++ message

/-- `exportToCSV` of `src/app.js` (lines 1203-1259) on the filtered pair:
active records are re-tagged `{...a, status: 'Active', clearedAt: null}`,
cleared records `{...a, status: 'Cleared'}`; with zero records the
function shows a notification and returns before building any CSV text
(embedded as `none`); otherwise the document is the header line plus one
newline-terminated row per record.  The `new Date()` inside
`getActiveDuration` is the explicit `now` argument; blob construction and
the download link are browser side effects outside the text produced. -/
def exportToCSV (filteredActive filteredCleared : List AlarmRecord) (now : ℚ) :
    Option String :=
  let allAlarms : List (AlarmRecord × String) :=
    filteredActive.map (fun a => ({ a with clearedAt := none }, "Active"))
      ++ filteredCleared.map (fun a => (a, "Cleared"))
  if allAlarms.length = 0 then none
  else
    some (CSV_HEADER ++ "\n"
      ++ String.join (allAlarms.map (fun p => exportRow now p.1 p.2 ++ "\n")))

/-- C4 counterexample: the claim says the exporter still succeeds on an
empty filtered set and produces the header-only document; the code
instead returns early (`showNotification('No alarms to export...')`) and
builds no CSV at all. -/
theorem exportToCSV_empty_counterexample : exportToCSV [] [] 0 = none := rfl

/-- C4 (amended): on an empty filtered record set `exportToCSV` does not
fail — it returns early after showing a notification — but it produces no
document at all, header-only or otherwise. -/
theorem exportToCSV_empty_none (now : ℚ) : exportToCSV [] [] now = none := rfl

/-- C8 (amended): field escaping wraps a field in double quotes with
internal quotes doubled exactly when it contains a comma, double quote or
line break (the wrapped form parses back to the original field), returns
it unchanged otherwise, and `M,01` renders as `"M,01"`; exporting N ≥ 1
filtered records yields exactly the header line plus N newline-terminated
data lines.  (At N = 0 no document is produced at all — see C4 — which is
the one respect in which the claim as stated fails.) -/
theorem exportToCSV_rows_and_escaping (act clr : List AlarmRecord) (now : ℚ)
    (h : 0 < act.length + clr.length) :
    (∃ rows : List String,
      exportToCSV act clr now
          = some (CSV_HEADER ++ "\n" ++ String.join (rows.map (fun r => r ++ "\n"))) ∧
        rows.length = act.length + clr.length) ∧
    (∀ s : String,
      ((',' ∈ s.data ∨ '"' ∈ s.data ∨ '\n' ∈ s.data) →
        (escapeCSV s).data = '"' :: (doubleQuote s.data ++ ['"'])) ∧
      (¬(',' ∈ s.data ∨ '"' ∈ s.data ∨ '\n' ∈ s.data) → escapeCSV s = s) ∧
      parseCSVField (escapeCSVChars s.data) = s.data) ∧
    escapeCSV "M,01" = "\"M,01\"" := by
  refine ⟨?_, ?_, by decide⟩
  · have hne : ((act.map (fun a => (({a with clearedAt := none} : AlarmRecord), "Active"))
        ++ clr.map (fun a => (a, "Cleared")) : List (AlarmRecord × String))).length ≠ 0 := by
      simp only [List.length_append, List.length_map]
      omega
    refine ⟨((act.map (fun a => (({a with clearedAt := none} : AlarmRecord), "Active"))
        ++ clr.map (fun a => (a, "Cleared")) : List (AlarmRecord × String))).map
          (fun p => exportRow now p.1 p.2), ?_, ?_⟩
    · simp only [exportToCSV, if_neg hne, List.map_map]
      rfl
    · simp only [List.length_map, List.length_append]
  · intro s
    refine ⟨?_, ?_, ?_⟩
    · intro hsp
      show (String.mk (escapeCSVChars s.data)).data = _
      rw [show (String.mk (escapeCSVChars s.data)).data = escapeCSVChars s.data from rfl]
      rw [escapeCSVChars, if_pos hsp]
    · intro hns
      rw [escapeCSV, escapeCSVChars, if_neg hns]
    · by_cases hsp : ',' ∈ s.data ∨ '"' ∈ s.data ∨ '\n' ∈ s.data
      · rw [escapeCSVChars, if_pos hsp, parseCSVField]
        rw [if_pos rfl, List.dropLast_concat, collapseQuotes_doubleQuote]
      · rw [escapeCSVChars, if_neg hsp]
        have hq : '"' ∉ s.data := fun hmem => hsp (Or.inr (Or.inl hmem))
        cases hsd : s.data with
        | nil => rfl
        | cons c rest =>
          rw [hsd] at hq
          have hc : c ≠ '"' := by
            intro hcq
            exact hq (hcq ▸ List.mem_cons_self c rest)
          rw [parseCSVField, if_neg hc]

/-- A cleared alarm whose module id contains a comma, for the C8 witness. -/
def sampleClearedAlarm : AlarmRecord :=
  { moduleId := "M,01", type := "Overtemp", severity := "CRITICAL",
    activatedAt := 0, clearedAt := some 300000,
    duration := some (formatDuration 300000) }

/-- Witness for the amended C8: one cleared record (module id `M,01`). -/
theorem exportToCSV_rows_and_escaping_witness :
    (0 < List.length ([] : List AlarmRecord) + List.length [sampleClearedAlarm]) ∧
    ((∃ rows : List String,
      exportToCSV [] [sampleClearedAlarm] 0
          = some (CSV_HEADER ++ "\n" ++ String.join (rows.map (fun r => r ++ "\n"))) ∧
        rows.length
          = List.length ([] : List AlarmRecord) + List.length [sampleClearedAlarm]) ∧
    (∀ s : String,
      ((',' ∈ s.data ∨ '"' ∈ s.data ∨ '\n' ∈ s.data) →
        (escapeCSV s).data = '"' :: (doubleQuote s.data ++ ['"'])) ∧
      (¬(',' ∈ s.data ∨ '"' ∈ s.data ∨ '\n' ∈ s.data) → escapeCSV s = s) ∧
      parseCSVField (escapeCSVChars s.data) = s.data) ∧
    escapeCSV "M,01" = "\"M,01\"") :=
  ⟨by decide, exportToCSV_rows_and_escaping [] [sampleClearedAlarm] 0 (by decide)⟩

/-- `String(i).padStart(3, '0')`. -/
def padStart3 (s : String) : String :=
  if s.length < 3 then String.mk (List.replicate (3 - s.length) '0') ++ s else s

/-- The module id `M${String(i).padStart(3, '0')}`. -/
def moduleIdOf (i : ℕ) : String := "M" ++ padStart3 (toString i)

/-- The mutable state of `generateAlarmsFromModuleData` (src/app.js lines
1320-1409): the next index into the random-draw stream and the two arrays
being pushed to. -/
structure GenState where
  k : ℕ
  activeAlarms : List AlarmRecord
  clearedAlarms : List AlarmRecord

/-- One iteration of the `Object.entries(statuses).forEach` body
(src/app.js lines 1336-1364) for an entry `(statusType, statusValue)`:
draw an activation time in the last six hours, then with `Math.random() >
0.6` attempt to clear within four hours; a clearing time not yet reached
leaves the alarm active.  Draw indices follow the source's lazy
evaluation order (two draws on the active path, three when the clearing
branch is taken). -/
def processIndicator (rand : ℕ → ℚ) (now : ℚ) (moduleId : String)
    (st : GenState) (entry : String × String) : GenState :=
  if entry.2 ≠ "OK" then
    if rand (st.k + 1) > 6/10 then
      if now - rand st.k * (6 * 60 * 60 * 1000)
          + rand (st.k + 2) * (4 * 60 * 60 * 1000) < now then
        { k := st.k + 3, activeAlarms := st.activeAlarms,
          clearedAlarms := st.clearedAlarms
            ++ [{ moduleId := moduleId, type := entry.1, severity := entry.2,
                  activatedAt := now - rand st.k * (6 * 60 * 60 * 1000),
                  clearedAt := some (now - rand st.k * (6 * 60 * 60 * 1000)
                    + rand (st.k + 2) * (4 * 60 * 60 * 1000)),
                  duration := some (formatDuration
                    (now - rand st.k * (6 * 60 * 60 * 1000)
                      + rand (st.k + 2) * (4 * 60 * 60 * 1000)
                      - (now - rand st.k * (6 * 60 * 60 * 1000)))) }] }
      else
        { k := st.k + 3,
          activeAlarms := st.activeAlarms
            ++ [{ moduleId := moduleId, type := entry.1, severity := entry.2,
                  activatedAt := now - rand st.k * (6 * 60 * 60 * 1000) }],
          clearedAlarms := st.clearedAlarms }
    else
      { k := st.k + 2,
        activeAlarms := st.activeAlarms
          ++ [{ moduleId := moduleId, type := entry.1, severity := entry.2,
                activatedAt := now - rand st.k * (6 * 60 * 60 * 1000) }],
        clearedAlarms := st.clearedAlarms }
  else st

/-- One iteration of the module loop (src/app.js lines 1329-1365):
`moduleData[moduleId]` absent skips the module (`if (!statuses)
continue`). -/
def processModule (rand : ℕ → ℚ) (now : ℚ)
    (moduleData : String → Option (List (String × String)))
    (st : GenState) (i : ℕ) : GenState :=
  match moduleData (moduleIdOf i) with
  | none => st
  | some statuses => statuses.foldl (processIndicator rand now (moduleIdOf i)) st

/-- `Object.keys(ALARM_MESSAGES)` in insertion order (src/app.js line
1370). -/
def alarmStatusTypes : List String :=
  ["Overtemp", "Comm Lost", "Voltage Level", "Fan Fail", "Power Supply Error",
   "Vdc Fault", "Current Level", "Thermal Status", "Gating OK", "Sync Fault",
   "Interlock", "Self Test"]

/-- The `severities` array of src/app.js line 1371. -/
def alarmSeverities : List String := ["CRITICAL", "WARNING", "DEGRADED"]

/-- The additional-cleared-alarms loop (src/app.js lines 1373-1395): five
draws per iteration (module number, status type, severity, activation in
the last seven days, clearing within twelve hours); a clearing time in
the future is not pushed. -/
def genAdditional (rand : ℕ → ℚ) (now : ℚ) : ℕ → ℕ → List AlarmRecord
  | 0, _ => []
  | n + 1, k =>
    let rest := genAdditional rand now n (k + 5)
    if now - rand (k + 3) * (7 * 24 * 60 * 60 * 1000)
        + rand (k + 4) * (12 * 60 * 60 * 1000) < now then
      { moduleId := moduleIdOf ((⌊rand k * 64⌋).toNat + 1),
        type := alarmStatusTypes.getD
          (⌊rand (k + 1) * (alarmStatusTypes.length : ℚ)⌋).toNat "",
        severity := alarmSeverities.getD (⌊rand (k + 2) * 3⌋).toNat "",
        activatedAt := now - rand (k + 3) * (7 * 24 * 60 * 60 * 1000),
        clearedAt := some (now - rand (k + 3) * (7 * 24 * 60 * 60 * 1000)
          + rand (k + 4) * (12 * 60 * 60 * 1000)),
        duration := some (formatDuration
          (now - rand (k + 3) * (7 * 24 * 60 * 60 * 1000)
            + rand (k + 4) * (12 * 60 * 60 * 1000)
            - (now - rand (k + 3) * (7 * 24 * 60 * 60 * 1000)))) } :: rest
    else rest

/-- The `severityPriority` table of src/app.js line 1398
({CRITICAL: 3, WARNING: 2, DEGRADED: 1}); generated alarms carry only
these three labels, and the embedding uses 0 outside them. -/
def severityPriority (s : String) : ℕ :=
  if s = "CRITICAL" then 3 else if s = "WARNING" then 2
  else if s = "DEGRADED" then 1 else 0

/-- The active-alarm comparator of src/app.js lines 1399-1403 (severity
priority descending, then activation time descending) as the `a precedes
b` relation of a stable sort (JavaScript `Array.prototype.sort` is
stable): `a` may come first iff the comparator value is ≤ 0. -/
def activeLE (a b : AlarmRecord) : Bool :=
  if severityPriority a.severity = severityPriority b.severity
  then decide (b.activatedAt ≤ a.activatedAt)
  else decide (severityPriority b.severity < severityPriority a.severity)

/-- The cleared-alarm comparator of src/app.js line 1406 (cleared time
descending); every cleared record carries `clearedAt`. -/
def clearedLE (a b : AlarmRecord) : Bool :=
  decide (b.clearedAt.getD 0 ≤ a.clearedAt.getD 0)

/-- `generateAlarmsFromModuleData` of `src/app.js` (lines 1320-1409), with
the module-data source (`window.STATCOM.getModuleData()`), the clock
(`new Date()`) and the `Math.random()` stream as explicit inputs. -/
def generateAlarmsFromModuleData
    (moduleData : String → Option (List (String × String))) (now : ℚ)
    (rand : ℕ → ℚ) : List AlarmRecord × List AlarmRecord :=
  let st := (List.range' 1 64).foldl (processModule rand now moduleData) ⟨0, [], []⟩
  let additionalClearedCount := 20 + (⌊rand st.k * 11⌋).toNat
  let clearedAll := st.clearedAlarms
    ++ genAdditional rand now additionalClearedCount (st.k + 1)
  (st.activeAlarms.mergeSort activeLE, clearedAll.mergeSort clearedLE)

/-- The C7 invariant: a cleared record carries a clearing time not before
its activation and a duration string fixed as the formatted span. -/
def clearedInvariant (r : AlarmRecord) : Prop :=
  ∃ c, r.clearedAt = some c ∧ r.activatedAt ≤ c ∧
    r.duration = some (formatDuration (c - r.activatedAt))

lemma processIndicator_cleared (rand : ℕ → ℚ) (now : ℚ) (moduleId : String)
    (st : GenState) (entry : String × String)
    (hrand : ∀ n, 0 ≤ rand n ∧ rand n < 1)
    (hst : ∀ r ∈ st.clearedAlarms, clearedInvariant r) :
    ∀ r ∈ (processIndicator rand now moduleId st entry).clearedAlarms,
      clearedInvariant r := by
  intro r hr
  simp only [processIndicator] at hr
  split at hr
  · split at hr
    · split at hr
      · rcases List.mem_append.mp hr with hmem | hnew
        · exact hst r hmem
        · rcases List.mem_singleton.mp hnew with rfl
          refine ⟨_, rfl, ?_, rfl⟩
          have h0 := (hrand (st.k + 2)).1
          have hmul : 0 ≤ rand (st.k + 2) * (4 * 60 * 60 * 1000) :=
            mul_nonneg h0 (by norm_num)
          show now - rand st.k * (6 * 60 * 60 * 1000)
            ≤ now - rand st.k * (6 * 60 * 60 * 1000)
              + rand (st.k + 2) * (4 * 60 * 60 * 1000)
          linarith
      · exact hst r hr
    · exact hst r hr
  · exact hst r hr

lemma foldl_processIndicator_cleared (rand : ℕ → ℚ) (now : ℚ) (moduleId : String)
    (hrand : ∀ n, 0 ≤ rand n ∧ rand n < 1) :
    ∀ (statuses : List (String × String)) (st : GenState),
      (∀ r ∈ st.clearedAlarms, clearedInvariant r) →
      ∀ r ∈ (statuses.foldl (processIndicator rand now moduleId) st).clearedAlarms,
        clearedInvariant r := by
  intro statuses
  induction statuses with
  | nil => intro st hst; simpa using hst
  | cons e rest ih =>
    intro st hst
    simp only [List.foldl_cons]
    exact ih _ (processIndicator_cleared rand now moduleId st e hrand hst)

lemma processModule_cleared (rand : ℕ → ℚ) (now : ℚ)
    (moduleData : String → Option (List (String × String))) (st : GenState) (i : ℕ)
    (hrand : ∀ n, 0 ≤ rand n ∧ rand n < 1)
    (hst : ∀ r ∈ st.clearedAlarms, clearedInvariant r) :
    ∀ r ∈ (processModule rand now moduleData st i).clearedAlarms, clearedInvariant r := by
  unfold processModule
  cases moduleData (moduleIdOf i) with
  | none => exact hst
  | some statuses => exact foldl_processIndicator_cleared rand now _ hrand statuses st hst

lemma foldl_processModule_cleared (rand : ℕ → ℚ) (now : ℚ)
    (moduleData : String → Option (List (String × String)))
    (hrand : ∀ n, 0 ≤ rand n ∧ rand n < 1) :
    ∀ (indices : List ℕ) (st : GenState),
      (∀ r ∈ st.clearedAlarms, clearedInvariant r) →
      ∀ r ∈ (indices.foldl (processModule rand now moduleData) st).clearedAlarms,
        clearedInvariant r := by
  intro indices
  induction indices with
  | nil => intro st hst; simpa using hst
  | cons i rest ih =>
    intro st hst
    simp only [List.foldl_cons]
    exact ih _ (processModule_cleared rand now moduleData st i hrand hst)

lemma genAdditional_cleared (rand : ℕ → ℚ) (now : ℚ)
    (hrand : ∀ n, 0 ≤ rand n ∧ rand n < 1) :
    ∀ (n k : ℕ), ∀ r ∈ genAdditional rand now n k, clearedInvariant r := by
  intro n
  induction n with
  | zero => intro k r hr; simp [genAdditional] at hr
  | succ n ih =>
    intro k r hr
    simp only [genAdditional] at hr
    split at hr
    · rcases List.mem_cons.mp hr with rfl | hmem
      · refine ⟨_, rfl, ?_, rfl⟩
        have h0 := (hrand (k + 4)).1
        have hmul : 0 ≤ rand (k + 4) * (12 * 60 * 60 * 1000) :=
          mul_nonneg h0 (by norm_num)
        show now - rand (k + 3) * (7 * 24 * 60 * 60 * 1000)
          ≤ now - rand (k + 3) * (7 * 24 * 60 * 60 * 1000)
            + rand (k + 4) * (12 * 60 * 60 * 1000)
        linarith
      · exact ih (k + 5) r hmem
    · exact ih (k + 5) r hr

/-- C7: for every module-data snapshot, clock value and random-draw stream
with values in [0, 1), every cleared record produced by
`generateAlarmsFromModuleData` carries `clearedAt ≥ activatedAt` and a
duration string fixed at clearing time as the formatted span
`clearedAt - activatedAt`. -/
theorem generateAlarms_cleared_invariant
    (moduleData : String → Option (List (String × String))) (now : ℚ)
    (rand : ℕ → ℚ) (hrand : ∀ n, 0 ≤ rand n ∧ rand n < 1) :
    ∀ r ∈ (generateAlarmsFromModuleData moduleData now rand).2,
      ∃ c, r.clearedAt = some c ∧ r.activatedAt ≤ c ∧
        r.duration = some (formatDuration (c - r.activatedAt)) := by
  intro r hr
  simp only [generateAlarmsFromModuleData] at hr
  rw [List.mem_mergeSort] at hr
  rcases List.mem_append.mp hr with hmem | hadd
  · exact foldl_processModule_cleared rand now moduleData hrand (List.range' 1 64)
      ⟨0, [], []⟩ (by intro r hr; simp at hr) r hmem
  · exact genAdditional_cleared rand now hrand _ _ r hadd

/-- Witness for C7 with the constant stream 1/2 and an empty module-data
snapshot: the generator then emits 25 additional cleared records, and the
invariant is checked on that output. -/
theorem generateAlarms_cleared_invariant_witness :
    (∀ n : ℕ, 0 ≤ (fun _ : ℕ => (1 / 2 : ℚ)) n ∧ (fun _ : ℕ => (1 / 2 : ℚ)) n < 1) ∧
      (∀ r ∈ (generateAlarmsFromModuleData (fun _ => none) 0
          (fun _ : ℕ => (1 / 2 : ℚ))).2,
        ∃ c, r.clearedAt = some c ∧ r.activatedAt ≤ c ∧
          r.duration = some (formatDuration (c - r.activatedAt))) :=
  ⟨fun _ => ⟨by norm_num, by norm_num⟩,
    generateAlarms_cleared_invariant (fun _ => none) 0 (fun _ : ℕ => (1 / 2 : ℚ))
      (fun _ => ⟨by norm_num, by norm_num⟩)⟩

/-- C8 counterexample: the claim that exporting N filtered records yields
exactly the header line plus N data lines fails at N = 0 — there the code
produces no document at all rather than the header-only text the claim
describes. -/
theorem exportToCSV_N_lines_counterexample :
    ¬ ∃ rows : List String,
        exportToCSV [] [] 0
            = some (CSV_HEADER ++ "\n" ++ String.join (rows.map (fun r => r ++ "\n")))
          ∧ rows.length = 0 := by
  rintro ⟨rows, heq, -⟩
  have hn : exportToCSV [] [] 0 = none := rfl
  rw [hn] at heq
  exact Option.noConfusion heq
